import Mathlib

/-!
# Verification of the resilient async Web3 adapter

Shallow embedding of `src/app/adapters/async_web3_adapter.py`:

* `retry_web3` / `retryLoop` — the retry-with-deadline decorator.  The unit of
  work is modelled as a function from the attempt number (1-based) to a result
  or an error; time is modelled as in the spec's scenarios: each attempt takes
  negligible time and each backoff sleep takes exactly 1 second (the source's
  fixed `asyncio.sleep(1)`), so the elapsed time observed when handling the
  failure of attempt `k` is `k - 1` seconds.  `elapsed` is threaded through the
  recursion accordingly.  The wrapper's observable outcome is captured by
  `RetryResult`: the propagated result, the emitted log lines, the number of
  executions of the unit of work and the number of backoff sleeps.
* `AsyncWeb3Adapter.get_instance` — the per-URL singleton registry, with the
  class-level dict modelled as an association list.  The registry lock
  serializes `get_instance` bodies, so a sequence of calls is modelled as a
  sequential fold (`runCalls`).  The external `AsyncWeb3` transport constructor
  is opaque to this core; an `Env` oracle says, per URL and timeout, whether
  that construction raises, which lets construction-failure behaviour be
  stated.
-/

/-! ## Data model and embedded operations -/


/-- The error kinds observable by the adapter.  The first four mirror the
`web3.exceptions` classes named in the source's `except` clause; `otherError`
stands for any other exception class. -/
inductive Web3Error where
  | providerConnectionError (msg : String)
  | timeExhausted (msg : String)
  | blockNotFound (msg : String)
  | transactionNotFound (msg : String)
  | otherError (name : String) (msg : String)
deriving DecidableEq, Repr

/-- An error is transient exactly when it is caught by the source's
`except (ProviderConnectionError, TimeExhausted, BlockNotFound,
TransactionNotFound)` clause. -/
def Web3Error.isTransient : Web3Error → Bool
  | .providerConnectionError _ => true
  | .timeExhausted _ => true
  | .blockNotFound _ => true
  | .transactionNotFound _ => true
  | .otherError _ _ => false

/-- The log lines emitted by the retry wrapper, in order:
`retryWarning` is the `logger.warning` line carrying the attempt number and the
remaining budget, `budgetExceeded` is the `logger.error` line logged before
re-raising on exhaustion, `fatalError` is the `logger.error` line for a
non-Web3 error. -/
inductive LogEvent where
  | retryWarning (attempt : Nat) (remaining : Int)
  | budgetExceeded (maxSeconds : Nat)
  | fatalError (e : Web3Error)
deriving DecidableEq, Repr

/-- Observable outcome of one invocation of the wrapped call: the propagated
result or error, the log lines in emission order, the number of times the unit
of work was executed, and the number of backoff sleeps performed. -/
structure RetryResult (α : Type) where
  result : Except Web3Error α
  logs : List LogEvent
  attempts : Nat
  sleeps : Nat
deriving Repr

/-- The body of the source's `while True` loop in `retry_web3`'s `wrapper`,
from the state (current attempt number, elapsed seconds).  Faithful to the
source: on a transient error the warning is logged first, then
`remaining <= 0` is checked (give up) and otherwise the wrapper sleeps 1s and
increments the attempt; a non-transient error is logged and re-raised at once.
Terminates because each retry iteration adds one second of elapsed time. -/
def retryLoop (maxSeconds : Nat) (work : Nat → Except Web3Error α)
    (attempt : Nat) (elapsed : Nat) : RetryResult α :=
  match work attempt with
  | .ok v => ⟨.ok v, [], 1, 0⟩
  | .error exc =>
    if exc.isTransient then
      if hr : (maxSeconds : Int) - (elapsed : Int) ≤ 0 then
        ⟨.error exc,
          [.retryWarning attempt ((maxSeconds : Int) - (elapsed : Int)),
            .budgetExceeded maxSeconds], 1, 0⟩
      else
        let r := retryLoop maxSeconds work (attempt + 1) (elapsed + 1)
        ⟨r.result,
          .retryWarning attempt ((maxSeconds : Int) - (elapsed : Int)) :: r.logs,
          r.attempts + 1, r.sleeps + 1⟩
    else
      ⟨.error exc, [.fatalError exc], 1, 0⟩
termination_by maxSeconds - elapsed
decreasing_by omega

/-- `retry_web3(max_seconds)` applied to a unit of work: start at attempt 1
with zero elapsed time. -/
def retry_web3 (maxSeconds : Nat) (work : Nat → Except Web3Error α) :
    RetryResult α :=
  retryLoop maxSeconds work 1 0

/-- Errors that the adapter's constructor path can raise: the `RuntimeError`
guard in `__init__`, or whatever the external `AsyncWeb3(...)` transport
constructor raises. -/
inductive PyError where
  | runtimeError (msg : String)
  | transportError (msg : String)
deriving DecidableEq, Repr

/-- The external `AsyncWeb3` transport client, opaque to this core: the fields
record the configuration the adapter passes to it (`AsyncHTTPProvider(rpc_url,
request_kwargs=...)`) and the POA middleware injection performed in
`_create_client`. -/
structure AsyncWeb3Client where
  rpc_url : String
  request_timeout : Nat
  poaMiddlewareInjected : Bool
deriving DecidableEq, Repr

/-- Behaviour of the external collaborator: per URL and per-attempt timeout,
whether constructing the transport client raises (`some e`) or succeeds
(`none`).  The spec treats the transport as opaque, so this is the only said
degree of freedom. -/
structure Env where
  transportFails : String → Nat → Option PyError

/-- An `Env` whose transport constructor always succeeds. -/
def okEnv : Env := ⟨fun _ _ => none⟩

/-- One adapter handle: `rpc_url`, `request_timeout` and the transport client
`w3`, exactly the three attributes `__init__` assigns. -/
structure AsyncWeb3Adapter where
  rpc_url : String
  request_timeout : Nat
  w3 : AsyncWeb3Client
deriving DecidableEq, Repr

/-- `AsyncWeb3Adapter._create_client`: construct the external client for this
URL and timeout and inject the POA middleware; the external construction may
raise, in which case the error propagates. -/
def create_client (env : Env) (rpc_url : String) (request_timeout : Nat) :
    Except PyError AsyncWeb3Client :=
  match env.transportFails rpc_url request_timeout with
  | some e => .error e
  | none => .ok ⟨rpc_url, request_timeout, true⟩

/-- `AsyncWeb3Adapter.__init__`: unless the `_internal` flag is set it raises
`RuntimeError` before assigning any attribute; otherwise it assigns `rpc_url`
and `request_timeout` and builds the client via `_create_client`. -/
def AsyncWeb3Adapter.init (env : Env) (rpc_url : String)
    (request_timeout : Nat) ( _internal : Bool) :
    Except PyError AsyncWeb3Adapter :=
  if _internal = false then
    .error (.runtimeError "Use AsyncWeb3Adapter.get_instance()")
  else
    match create_client env rpc_url request_timeout with
    | .error e => .error e
    | .ok w3 => .ok ⟨rpc_url, request_timeout, w3⟩

/-- The adapter a successful construction yields for a given URL and timeout. -/
def freshAdapter (rpc_url : String) (request_timeout : Nat) : AsyncWeb3Adapter :=
  ⟨rpc_url, request_timeout, ⟨rpc_url, request_timeout, true⟩⟩

/-- The class-level `_instances` dict, modelled as an association list (keys
are unique because insertion only happens on a lookup miss). -/
abbrev Registry := List (String × AsyncWeb3Adapter)

/-- Dict lookup: first binding for the key, if any. -/
def Registry.lookup (reg : Registry) (url : String) : Option AsyncWeb3Adapter :=
  match reg with
  | [] => none
  | (k, v) :: rest => if k = url then some v else Registry.lookup rest url

/-- `AsyncWeb3Adapter.get_instance`, the body that runs under `cls._lock`:
return the cached handle if the URL is present; otherwise construct a new
handle via `cls(..., _internal=True)` and insert it.  The returned `Registry`
is the state of `_instances` after the call: unchanged on a cache hit and
unchanged when construction raises (the insertion line is never reached). -/
def AsyncWeb3Adapter.get_instance (env : Env) (reg : Registry)
    (rpc_url : String) (request_timeout : Nat) :
    Except PyError AsyncWeb3Adapter × Registry :=
  match reg.lookup rpc_url with
  | some inst => (.ok inst, reg)
  | none =>
    match AsyncWeb3Adapter.init env rpc_url request_timeout true with
    | .error e => (.error e, reg)
    | .ok inst => (.ok inst, (rpc_url, inst) :: reg)

/-- One queued `get_instance` call: the arguments one caller passes. -/
structure CallSpec where
  rpc_url : String
  request_timeout : Nat
deriving DecidableEq, Repr

/-- Observable outcome of a sequence of `get_instance` calls: what each caller
received, the final registry, and the URLs for which the transport constructor
was invoked (one entry per invocation, in order). -/
structure RunOutcome where
  results : List (CallSpec × Except PyError AsyncWeb3Adapter)
  finalReg : Registry
  constructions : List String

/-- A sequence of `get_instance` calls.  `cls._lock` serializes the call
bodies, so any interleaving of N callers is some sequential order of the N
bodies; `runCalls` executes one such order.  A construction event is recorded
exactly when the registry lookup misses, which is exactly when the source
reaches `cls(...)` and hence the `AsyncWeb3(...)` transport constructor. -/
def runCalls (env : Env) (reg : Registry) : List CallSpec → RunOutcome
  | [] => ⟨[], reg, []⟩
  | c :: rest =>
    let step := AsyncWeb3Adapter.get_instance env reg c.rpc_url c.request_timeout
    let constructedHere : List String :=
      match reg.lookup c.rpc_url with
      | some _ => []
      | none => [c.rpc_url]
    let tail := runCalls env step.2 rest
    ⟨(c, step.1) :: tail.results, tail.finalReg, constructedHere ++ tail.constructions⟩

/-- An `Env` whose transport constructor always raises, for witnesses. -/
def failEnv : Env := ⟨fun _ _ => some (.transportError "boom")⟩

/-- A unit of work that always raises a fatal (non-Web3) error. -/
def fatalWork : Nat → Except Web3Error Nat :=
  fun _ => .error (.otherError "ValueError" "boom")

/-- A unit of work that always raises a transient connection error. -/
def connRefusedWork : Nat → Except Web3Error Nat :=
  fun _ => .error (.providerConnectionError "connection refused")

/-- A unit of work raising transient `E1` on attempts 1-3 and transient `E2`
from attempt 4 on (the attempt that exhausts a 3-second budget). -/
def lastErrorWork : Nat → Except Web3Error Nat :=
  fun k =>
    if k < 4 then .error (.providerConnectionError "E1")
    else .error (.timeExhausted "E2")

/-- A unit of work raising transient errors on attempts 1 and 2 and
succeeding on attempt 3. -/
def eventualWork : Nat → Except Web3Error Nat :=
  fun k =>
    if k = 1 then .error (.providerConnectionError "refused")
    else if k = 2 then .error (.blockNotFound "pending")
    else .ok 42

/-! ## Lemmas, claim theorems and witnesses -/

lemma retryLoop_ok {α : Type} {work : Nat → Except Web3Error α} {v : α}
    {B attempt elapsed : Nat} (h : work attempt = .ok v) :
    retryLoop B work attempt elapsed = ⟨.ok v, [], 1, 0⟩ := by
  unfold retryLoop
  rw [h]

lemma retryLoop_fatal {α : Type} {work : Nat → Except Web3Error α}
    {exc : Web3Error} {B attempt elapsed : Nat}
    (h : work attempt = .error exc) (ht : exc.isTransient = false) :
    retryLoop B work attempt elapsed = ⟨.error exc, [.fatalError exc], 1, 0⟩ := by
  unfold retryLoop
  rw [h]
  simp [ht]

lemma retryLoop_exhaust {α : Type} {work : Nat → Except Web3Error α}
    {exc : Web3Error} {B attempt elapsed : Nat}
    (h : work attempt = .error exc) (ht : exc.isTransient = true)
    (hb : B ≤ elapsed) :
    retryLoop B work attempt elapsed =
      ⟨.error exc,
        [.retryWarning attempt ((B : Int) - (elapsed : Int)),
          .budgetExceeded B], 1, 0⟩ := by
  unfold retryLoop
  rw [h]
  simp only [ht, if_true]
  rw [dif_pos (by omega)]

lemma retryLoop_retry {α : Type} {work : Nat → Except Web3Error α}
    {exc : Web3Error} {B attempt elapsed : Nat}
    (h : work attempt = .error exc) (ht : exc.isTransient = true)
    (hb : elapsed < B) :
    retryLoop B work attempt elapsed =
      ⟨(retryLoop B work (attempt + 1) (elapsed + 1)).result,
        .retryWarning attempt ((B : Int) - (elapsed : Int)) ::
          (retryLoop B work (attempt + 1) (elapsed + 1)).logs,
        (retryLoop B work (attempt + 1) (elapsed + 1)).attempts + 1,
        (retryLoop B work (attempt + 1) (elapsed + 1)).sleeps + 1⟩ := by
  conv_lhs => unfold retryLoop
  rw [h]
  simp only [ht, if_true]
  rw [dif_neg (by omega)]

lemma Registry.lookup_cons (k : String) (a : AsyncWeb3Adapter) (reg : Registry)
    (v : String) :
    Registry.lookup ((k, a) :: reg) v = if k = v then some a else reg.lookup v :=
  rfl

lemma get_instance_hit {env : Env} {reg : Registry} {u : String} {t : Nat}
    {a : AsyncWeb3Adapter} (h : reg.lookup u = some a) :
    AsyncWeb3Adapter.get_instance env reg u t = (.ok a, reg) := by
  unfold AsyncWeb3Adapter.get_instance
  rw [h]

lemma get_instance_miss_ok {env : Env} {reg : Registry} {u : String} {t : Nat}
    (h : reg.lookup u = none) (henv : env.transportFails u t = none) :
    AsyncWeb3Adapter.get_instance env reg u t =
      (.ok (freshAdapter u t), (u, freshAdapter u t) :: reg) := by
  unfold AsyncWeb3Adapter.get_instance AsyncWeb3Adapter.init create_client
  rw [h, henv]
  rfl

lemma get_instance_miss_fail {env : Env} {reg : Registry} {u : String} {t : Nat}
    {e : PyError} (h : reg.lookup u = none)
    (henv : env.transportFails u t = some e) :
    AsyncWeb3Adapter.get_instance env reg u t = (.error e, reg) := by
  unfold AsyncWeb3Adapter.get_instance AsyncWeb3Adapter.init create_client
  rw [h, henv]
  rfl

/-- The registry after a `get_instance` call is either unchanged or got one
new binding for a previously absent URL. -/
lemma get_instance_snd (env : Env) (reg : Registry) (u : String) (t : Nat) :
    (AsyncWeb3Adapter.get_instance env reg u t).2 = reg ∨
      (reg.lookup u = none ∧
        (AsyncWeb3Adapter.get_instance env reg u t).2 =
          (u, freshAdapter u t) :: reg) := by
  cases hl : reg.lookup u with
  | some a => left; rw [get_instance_hit hl]
  | none =>
    cases hf : env.transportFails u t with
    | some e => left; rw [get_instance_miss_fail hl hf]
    | none => right; exact ⟨rfl, by rw [get_instance_miss_ok hl hf]⟩

lemma get_instance_lookup_some {env : Env} {reg : Registry} {u : String}
    {t : Nat} {v : String} {a : AsyncWeb3Adapter} (h : reg.lookup v = some a) :
    Registry.lookup (AsyncWeb3Adapter.get_instance env reg u t).2 v = some a := by
  rcases get_instance_snd env reg u t with h2 | ⟨hn, h2⟩
  · rw [h2]; exact h
  · rw [h2, Registry.lookup_cons]
    have hne : u ≠ v := by
      intro e
      rw [e, h] at hn
      cases hn
    simp [hne, h]

lemma get_instance_lookup_none {env : Env} {reg : Registry} {u : String}
    {t : Nat} {v : String} (h : reg.lookup v = none) (hne : u ≠ v) :
    Registry.lookup (AsyncWeb3Adapter.get_instance env reg u t).2 v = none := by
  rcases get_instance_snd env reg u t with h2 | ⟨hn, h2⟩
  · rw [h2]; exact h
  · rw [h2, Registry.lookup_cons]
    simp [hne, h]

/-- C10 — The constructor guard: any `AsyncWeb3Adapter(...)` call that does not
set the `_internal` flag raises `RuntimeError`, whatever the environment, URL
and timeout; the check precedes every attribute assignment and every transport
construction (the result does not depend on `env`), so `get_instance` — the
only caller passing `_internal=True` — is the only way to obtain a handle. -/
theorem init_guard_runtimeError (env : Env) (u : String) (t : Nat) :
    AsyncWeb3Adapter.init env u t false =
      .error (.runtimeError "Use AsyncWeb3Adapter.get_instance()") :=
  rfl

/-- C8 — Calling `get_instance` for a URL already in the registry returns the
stored handle itself (all its fields unchanged) and leaves the registry
unchanged; the right-hand side does not mention `t`, so the timeout argument
of the later call is ignored (first-writer-wins). -/
theorem get_instance_cached_noop (env : Env) (reg : Registry) (u : String)
    (t : Nat) (a : AsyncWeb3Adapter) (h : reg.lookup u = some a) :
    AsyncWeb3Adapter.get_instance env reg u t = (.ok a, reg) :=
  get_instance_hit h

/-- Witness for C8 at a concrete registry. -/
theorem get_instance_cached_noop_witness :
    Registry.lookup [("u1", freshAdapter "u1" 10)] "u1" =
        some (freshAdapter "u1" 10) ∧
      AsyncWeb3Adapter.get_instance okEnv [("u1", freshAdapter "u1" 10)] "u1" 99 =
        (.ok (freshAdapter "u1" 10), [("u1", freshAdapter "u1" 10)]) :=
  ⟨by decide,
    get_instance_cached_noop okEnv [("u1", freshAdapter "u1" 10)] "u1" 99
      (freshAdapter "u1" 10) (by decide)⟩

/-- C9 — If transport construction raises during `get_instance` for a
never-seen URL, the error propagates and the registry is unchanged (the
insertion line is never reached), so a later call for the same URL against the
same registry attempts construction again and, if the transport now succeeds,
constructs and caches a fresh handle cleanly. -/
theorem get_instance_construction_failure (env : Env) (reg : Registry)
    (u : String) (t : Nat) (e : PyError) (hmiss : reg.lookup u = none)
    (hfail : env.transportFails u t = some e) :
    AsyncWeb3Adapter.get_instance env reg u t = (.error e, reg) ∧
      ∀ env2 : Env, env2.transportFails u t = none →
        AsyncWeb3Adapter.get_instance env2 reg u t =
          (.ok (freshAdapter u t), (u, freshAdapter u t) :: reg) :=
  ⟨get_instance_miss_fail hmiss hfail,
    fun _ henv2 => get_instance_miss_ok hmiss henv2⟩

/-- Witness for C9: a failing construction on the empty registry, retried
against `okEnv`. -/
theorem get_instance_construction_failure_witness :
    Registry.lookup [] "u1" = none ∧
      failEnv.transportFails "u1" 10 = some (.transportError "boom") ∧
      (AsyncWeb3Adapter.get_instance failEnv [] "u1" 10 =
          (.error (.transportError "boom"), []) ∧
        ∀ env2 : Env, env2.transportFails "u1" 10 = none →
          AsyncWeb3Adapter.get_instance env2 [] "u1" 10 =
            (.ok (freshAdapter "u1" 10), [("u1", freshAdapter "u1" 10)])) :=
  ⟨rfl, rfl,
    get_instance_construction_failure failEnv [] "u1" 10
      (.transportError "boom") rfl rfl⟩

lemma runCalls_cons_hit {env : Env} {reg : Registry} {c : CallSpec}
    {rest : List CallSpec} {b : AsyncWeb3Adapter}
    (hl : reg.lookup c.rpc_url = some b) :
    runCalls env reg (c :: rest) =
      ⟨(c, .ok b) :: (runCalls env reg rest).results,
        (runCalls env reg rest).finalReg,
        (runCalls env reg rest).constructions⟩ := by
  simp only [runCalls, hl, get_instance_hit hl, List.nil_append]

lemma runCalls_cons_miss_ok {env : Env} {reg : Registry} {c : CallSpec}
    {rest : List CallSpec} (hl : reg.lookup c.rpc_url = none)
    (henv : env.transportFails c.rpc_url c.request_timeout = none) :
    runCalls env reg (c :: rest) =
      ⟨(c, .ok (freshAdapter c.rpc_url c.request_timeout)) ::
          (runCalls env
            ((c.rpc_url, freshAdapter c.rpc_url c.request_timeout) :: reg)
            rest).results,
        (runCalls env
          ((c.rpc_url, freshAdapter c.rpc_url c.request_timeout) :: reg)
          rest).finalReg,
        c.rpc_url ::
          (runCalls env
            ((c.rpc_url, freshAdapter c.rpc_url c.request_timeout) :: reg)
            rest).constructions⟩ := by
  simp only [runCalls, hl, get_instance_miss_ok hl henv, List.singleton_append]

lemma runCalls_cons_miss_fail {env : Env} {reg : Registry} {c : CallSpec}
    {rest : List CallSpec} {e : PyError} (hl : reg.lookup c.rpc_url = none)
    (henv : env.transportFails c.rpc_url c.request_timeout = some e) :
    runCalls env reg (c :: rest) =
      ⟨(c, .error e) :: (runCalls env reg rest).results,
        (runCalls env reg rest).finalReg,
        c.rpc_url :: (runCalls env reg rest).constructions⟩ := by
  simp only [runCalls, hl, get_instance_miss_fail hl henv, List.singleton_append]

/-- Once a URL is cached with handle `a`, any further sequence of calls keeps
that binding, returns `a` to every caller that asks for that URL, and never
invokes the transport constructor for it again. -/
lemma runCalls_cached (env : Env) (u : String) (a : AsyncWeb3Adapter) :
    ∀ (calls : List CallSpec) (reg : Registry), reg.lookup u = some a →
      (∀ p ∈ (runCalls env reg calls).results, p.1.rpc_url = u → p.2 = .ok a) ∧
        (runCalls env reg calls).constructions.count u = 0 ∧
        (runCalls env reg calls).finalReg.lookup u = some a := by
  intro calls
  induction calls with
  | nil =>
    intro reg h
    exact ⟨fun p hp => absurd hp (List.not_mem_nil p), rfl, h⟩
  | cons c rest ih =>
    intro reg h
    cases hl : reg.lookup c.rpc_url with
    | some b =>
      have hrest := ih reg h
      rw [runCalls_cons_hit hl]
      refine ⟨?_, hrest.2.1, hrest.2.2⟩
      intro p hp hpu
      rcases List.mem_cons.mp hp with hp | hp
      · have hcu : c.rpc_url = u := by rw [hp] at hpu; exact hpu
        rw [hp]
        have hba : b = a := by
          rw [hcu, h] at hl
          exact (Option.some_inj.mp hl).symm
        rw [hba]
      · exact hrest.1 p hp hpu
    | none =>
      have hcu : c.rpc_url ≠ u := by
        intro he
        rw [he, h] at hl
        cases hl
      cases hf : env.transportFails c.rpc_url c.request_timeout with
      | none =>
        have h2 : Registry.lookup
            ((c.rpc_url, freshAdapter c.rpc_url c.request_timeout) :: reg) u =
              some a := by
          rw [Registry.lookup_cons, if_neg hcu]
          exact h
        have hrest := ih _ h2
        rw [runCalls_cons_miss_ok hl hf]
        refine ⟨?_, ?_, hrest.2.2⟩
        · intro p hp hpu
          rcases List.mem_cons.mp hp with hp | hp
          · exfalso
            rw [hp] at hpu
            exact hcu hpu
          · exact hrest.1 p hp hpu
        · simp only [List.count_cons, hrest.2.1]
          simp [hcu]
      | some e =>
        have hrest := ih reg h
        rw [runCalls_cons_miss_fail hl hf]
        refine ⟨?_, ?_, hrest.2.2⟩
        · intro p hp hpu
          rcases List.mem_cons.mp hp with hp | hp
          · exfalso
            rw [hp] at hpu
            exact hcu hpu
          · exact hrest.1 p hp hpu
        · simp only [List.count_cons, hrest.2.1]
          simp [hcu]

/-- Fresh-URL case: starting from a registry with no binding for `u`, with an
always-succeeding transport, any call sequence that mentions `u` at least once
produces one single handle for `u`: every caller asking for `u` receives it
and the transport constructor runs exactly once for `u`. -/
lemma runCalls_fresh_target (env : Env)
    (henv : ∀ v s, env.transportFails v s = none) (u : String) :
    ∀ (calls : List CallSpec) (reg : Registry), reg.lookup u = none →
      (∃ c ∈ calls, c.rpc_url = u) →
      ∃ a, (∀ p ∈ (runCalls env reg calls).results,
              p.1.rpc_url = u → p.2 = .ok a) ∧
        (runCalls env reg calls).constructions.count u = 1 := by
  intro calls
  induction calls with
  | nil =>
    intro reg _ hu
    rcases hu with ⟨c, hc, _⟩
    exact absurd hc (List.not_mem_nil c)
  | cons c rest ih =>
    intro reg hmiss hu
    by_cases hc : c.rpc_url = u
    · have hmiss' : reg.lookup c.rpc_url = none := by rw [hc]; exact hmiss
      have hreg2 : Registry.lookup
          ((c.rpc_url, freshAdapter c.rpc_url c.request_timeout) :: reg) u =
            some (freshAdapter c.rpc_url c.request_timeout) := by
        rw [Registry.lookup_cons, if_pos hc]
      have hrest := runCalls_cached env u
        (freshAdapter c.rpc_url c.request_timeout) rest
        ((c.rpc_url, freshAdapter c.rpc_url c.request_timeout) :: reg) hreg2
      rw [runCalls_cons_miss_ok hmiss' (henv c.rpc_url c.request_timeout)]
      refine ⟨freshAdapter c.rpc_url c.request_timeout, ?_, ?_⟩
      · intro p hp hpu
        rcases List.mem_cons.mp hp with hp | hp
        · rw [hp]
        · exact hrest.1 p hp hpu
      · simp only [List.count_cons, hrest.2.1]
        simp [hc]
    · have hu' : ∃ d ∈ rest, d.rpc_url = u := by
        rcases hu with ⟨d, hd, hdu⟩
        rcases List.mem_cons.mp hd with hd | hd
        · exfalso
          rw [hd] at hdu
          exact hc hdu
        · exact ⟨d, hd, hdu⟩
      cases hl : reg.lookup c.rpc_url with
      | some b =>
        rcases ih reg hmiss hu' with ⟨a, ha, hcount⟩
        rw [runCalls_cons_hit hl]
        refine ⟨a, ?_, hcount⟩
        intro p hp hpu
        rcases List.mem_cons.mp hp with hp | hp
        · exfalso
          rw [hp] at hpu
          exact hc hpu
        · exact ha p hp hpu
      | none =>
        have hmiss2 : Registry.lookup
            ((c.rpc_url, freshAdapter c.rpc_url c.request_timeout) :: reg) u =
              none := by
          rw [Registry.lookup_cons, if_neg hc]
          exact hmiss
        rcases ih _ hmiss2 hu' with ⟨a, ha, hcount⟩
        rw [runCalls_cons_miss_ok hl (henv c.rpc_url c.request_timeout)]
        refine ⟨a, ?_, ?_⟩
        · intro p hp hpu
          rcases List.mem_cons.mp hp with hp | hp
          · exfalso
            rw [hp] at hpu
            exact hc hpu
          · exact ha p hp hpu
        · simp only [List.count_cons, hcount]
          simp [hc]

/-- C1 — Singleton property: starting from the empty registry, for any
serialized sequence of `get_instance` calls (any mix of URLs and timeouts,
with the external transport constructor succeeding), there is a single handle
`a` such that every call passing `rpc_url = u` returns `a`, and the transport
constructor is invoked exactly once for `u`, however many calls are made. -/
theorem get_instance_singleton (env : Env)
    (henv : ∀ v s, env.transportFails v s = none) (calls : List CallSpec)
    (u : String) (hu : ∃ c ∈ calls, c.rpc_url = u) :
    ∃ a, (∀ p ∈ (runCalls env [] calls).results,
            p.1.rpc_url = u → p.2 = .ok a) ∧
      (runCalls env [] calls).constructions.count u = 1 :=
  runCalls_fresh_target env henv u calls [] rfl hu

/-- Witness for C1: three interleaved callers, two of them for `"u1"` with
different timeouts. -/
theorem get_instance_singleton_witness :
    (∃ c ∈ [CallSpec.mk "u1" 10, CallSpec.mk "u2" 7, CallSpec.mk "u1" 5],
        c.rpc_url = "u1") ∧
      ∃ a, (∀ p ∈ (runCalls okEnv []
              [CallSpec.mk "u1" 10, CallSpec.mk "u2" 7,
                CallSpec.mk "u1" 5]).results,
            p.1.rpc_url = "u1" → p.2 = .ok a) ∧
        (runCalls okEnv []
          [CallSpec.mk "u1" 10, CallSpec.mk "u2" 7,
            CallSpec.mk "u1" 5]).constructions.count "u1" = 1 :=
  ⟨⟨CallSpec.mk "u1" 10, by simp, rfl⟩,
    get_instance_singleton okEnv (fun _ _ => rfl)
      [CallSpec.mk "u1" 10, CallSpec.mk "u2" 7, CallSpec.mk "u1" 5] "u1"
      ⟨CallSpec.mk "u1" 10, by simp, rfl⟩⟩

/-- Every run of the loop executes the unit of work at least once. -/
lemma retryLoop_attempts_pos {α : Type} (B : Nat)
    (work : Nat → Except Web3Error α) (attempt elapsed : Nat) :
    1 ≤ (retryLoop B work attempt elapsed).attempts := by
  cases hw : work attempt with
  | ok v => rw [retryLoop_ok hw]
  | error exc =>
    cases htr : exc.isTransient with
    | false => rw [retryLoop_fatal hw htr]
    | true =>
      by_cases hb : B ≤ elapsed
      · rw [retryLoop_exhaust hw htr hb]
      · rw [retryLoop_retry hw htr (by omega)]
        exact Nat.succ_le_succ (Nat.zero_le _)

/-- If the loop propagates an error, that error is exactly the one the unit
of work raised on the final attempt executed. -/
lemma retryLoop_last_error {α : Type} {work : Nat → Except Web3Error α}
    {e : Web3Error} :
    ∀ (n B attempt elapsed : Nat), B - elapsed ≤ n →
      (retryLoop B work attempt elapsed).result = .error e →
      work (attempt + ((retryLoop B work attempt elapsed).attempts - 1)) =
        .error e := by
  intro n
  induction n with
  | zero =>
    intro B attempt elapsed hn hres
    cases hw : work attempt with
    | ok v =>
      rw [retryLoop_ok hw] at hres
      cases hres
    | error exc =>
      cases htr : exc.isTransient with
      | false =>
        rw [retryLoop_fatal hw htr] at hres ⊢
        simp only [Except.error.injEq] at hres
        rw [hres] at hw
        exact hw
      | true =>
        rw [retryLoop_exhaust hw htr (by omega)] at hres ⊢
        simp only [Except.error.injEq] at hres
        rw [hres] at hw
        exact hw
  | succ n ih =>
    intro B attempt elapsed hn hres
    cases hw : work attempt with
    | ok v =>
      rw [retryLoop_ok hw] at hres
      cases hres
    | error exc =>
      cases htr : exc.isTransient with
      | false =>
        rw [retryLoop_fatal hw htr] at hres ⊢
        simp only [Except.error.injEq] at hres
        rw [hres] at hw
        exact hw
      | true =>
        by_cases hb : B ≤ elapsed
        · rw [retryLoop_exhaust hw htr hb] at hres ⊢
          simp only [Except.error.injEq] at hres
          rw [hres] at hw
          exact hw
        · rw [retryLoop_retry hw htr (by omega)] at hres ⊢
          have hres2 :
              (retryLoop B work (attempt + 1) (elapsed + 1)).result =
                .error e := hres
          have hih := ih B (attempt + 1) (elapsed + 1) (by omega) hres2
          have hpos := retryLoop_attempts_pos B work (attempt + 1) (elapsed + 1)
          have harith :
              attempt +
                  ((retryLoop B work (attempt + 1) (elapsed + 1)).attempts +
                    1 - 1) =
                attempt + 1 +
                  ((retryLoop B work (attempt + 1) (elapsed + 1)).attempts -
                    1) := by omega
          rw [harith]
          exact hih

/-- Against an always-transiently-failing unit of work, the loop from state
(`attempt`, `elapsed`) executes exactly `B - elapsed + 1` further attempts and
propagates the error of the last of them. -/
lemma retryLoop_always_transient {α : Type} {work : Nat → Except Web3Error α}
    (hfail : ∀ k, ∃ e, work k = .error e ∧ e.isTransient = true) :
    ∀ (n B attempt elapsed : Nat), B - elapsed = n →
      (retryLoop B work attempt elapsed).attempts = (B - elapsed) + 1 ∧
      ∃ e, work (attempt + (B - elapsed)) = .error e ∧
        (retryLoop B work attempt elapsed).result = .error e := by
  intro n
  induction n with
  | zero =>
    intro B attempt elapsed hn
    rcases hfail attempt with ⟨e, hw, ht⟩
    rw [retryLoop_exhaust hw ht (by omega), hn]
    exact ⟨rfl, e, by rw [Nat.add_zero]; exact hw, rfl⟩
  | succ n ih =>
    intro B attempt elapsed hn
    rcases hfail attempt with ⟨e, hw, ht⟩
    rw [retryLoop_retry hw ht (by omega)]
    have hn2 : B - (elapsed + 1) = n := by omega
    rcases ih B (attempt + 1) (elapsed + 1) hn2 with ⟨hatt, e2, hw2, hres2⟩
    constructor
    · show (retryLoop B work (attempt + 1) (elapsed + 1)).attempts + 1 =
        B - elapsed + 1
      rw [hatt, hn2, hn]
    · refine ⟨e2, ?_, hres2⟩
      have : attempt + (B - elapsed) = attempt + 1 + (B - (elapsed + 1)) := by
        omega
      rw [this]
      exact hw2

/-- Concrete evaluation of the last-error scenario: budget 3, `E1` on attempts
1-3, `E2` on attempt 4 (which exhausts the budget). -/
lemma lastErrorWork_eval :
    retry_web3 3 lastErrorWork =
      ⟨.error (.timeExhausted "E2"),
        [.retryWarning 1 3, .retryWarning 2 2, .retryWarning 3 1,
          .retryWarning 4 0, .budgetExceeded 3], 4, 3⟩ := by
  have h4 : retryLoop 3 lastErrorWork 4 3 =
      ⟨.error (.timeExhausted "E2"), [.retryWarning 4 0, .budgetExceeded 3],
        1, 0⟩ := by
    rw [retryLoop_exhaust
      (show lastErrorWork 4 = .error (.timeExhausted "E2") from rfl) rfl
      (by omega)]
    norm_num
  have h3 : retryLoop 3 lastErrorWork 3 2 =
      ⟨.error (.timeExhausted "E2"),
        [.retryWarning 3 1, .retryWarning 4 0, .budgetExceeded 3], 2, 1⟩ := by
    rw [retryLoop_retry
      (show lastErrorWork 3 = .error (.providerConnectionError "E1") from rfl)
      rfl (by omega), h4]
    norm_num
  have h2 : retryLoop 3 lastErrorWork 2 1 =
      ⟨.error (.timeExhausted "E2"),
        [.retryWarning 2 2, .retryWarning 3 1, .retryWarning 4 0,
          .budgetExceeded 3], 3, 2⟩ := by
    rw [retryLoop_retry
      (show lastErrorWork 2 = .error (.providerConnectionError "E1") from rfl)
      rfl (by omega), h3]
    norm_num
  rw [retry_web3, retryLoop_retry
    (show lastErrorWork 1 = .error (.providerConnectionError "E1") from rfl)
    rfl (by omega), h2]
  norm_num

/-- C2 — Last-error fidelity: when the wrapper propagates a transient error
after exhausting the budget, the propagated error object is exactly the error
the unit of work raised on the final attempt executed (attempt number
`attempts`); in particular no synthesized timeout error replaces it, and an
`E2` raised on the budget-exhausting attempt wins over earlier `E1`s. -/
theorem retry_last_error_fidelity {α : Type} (B : Nat)
    (work : Nat → Except Web3Error α) (e : Web3Error)
    (hres : (retry_web3 B work).result = .error e)
    ( _het : e.isTransient = true) :
    work ((retry_web3 B work).attempts) = .error e := by
  have h := retryLoop_last_error (B - 0) B 1 0 (Nat.le_refl _) hres
  have hpos := retryLoop_attempts_pos B work 1 0
  have harith : 1 + ((retryLoop B work 1 0).attempts - 1) =
      (retryLoop B work 1 0).attempts := by omega
  rw [harith] at h
  exact h

/-- Witness for C2: `E1` on attempts 1-3, `E2` on the budget-exhausting
attempt 4 — the propagated error is `E2`. -/
theorem retry_last_error_fidelity_witness :
    (retry_web3 3 lastErrorWork).result = .error (.timeExhausted "E2") ∧
      Web3Error.isTransient (.timeExhausted "E2") = true ∧
      lastErrorWork ((retry_web3 3 lastErrorWork).attempts) =
        .error (.timeExhausted "E2") :=
  ⟨by rw [lastErrorWork_eval], rfl,
    retry_last_error_fidelity 3 lastErrorWork (.timeExhausted "E2")
      (by rw [lastErrorWork_eval]) rfl⟩

/-- C3 — Fatal short-circuit: a non-transient error on the first attempt is
propagated unchanged after exactly one attempt, with no backoff sleep, and
only the fatal log line is emitted. -/
theorem retry_fatal_short_circuit {α : Type} (B : Nat)
    (work : Nat → Except Web3Error α) (e : Web3Error) (hw : work 1 = .error e)
    (ht : e.isTransient = false) :
    retry_web3 B work = ⟨.error e, [.fatalError e], 1, 0⟩ :=
  retryLoop_fatal hw ht

/-- Witness for C3: a `ValueError`-style non-Web3 error under the default
30-second budget. -/
theorem retry_fatal_short_circuit_witness :
    fatalWork 1 = .error (.otherError "ValueError" "boom") ∧
      Web3Error.isTransient (.otherError "ValueError" "boom") = false ∧
      retry_web3 30 fatalWork =
        ⟨.error (.otherError "ValueError" "boom"),
          [.fatalError (.otherError "ValueError" "boom")], 1, 0⟩ :=
  ⟨rfl, rfl,
    retry_fatal_short_circuit 30 fatalWork (.otherError "ValueError" "boom")
      rfl rfl⟩

/-- C4 — Retried iff transient: with a positive budget, a first-attempt error
leads to a second attempt exactly when the error is transient; a non-transient
error means exactly one attempt with the original error propagated; and the
transient set is precisely connection failure, per-attempt timeout,
block-not-found and transaction-not-found. -/
theorem retry_transient_iff {α : Type} (B : Nat)
    (work : Nat → Except Web3Error α) (e : Web3Error) (hB : 0 < B)
    (hw : work 1 = .error e) :
    (2 ≤ (retry_web3 B work).attempts ↔ e.isTransient = true) ∧
      (e.isTransient = false →
        retry_web3 B work = ⟨.error e, [.fatalError e], 1, 0⟩) ∧
      ∀ e2 : Web3Error, e2.isTransient = true ↔
        ((∃ m, e2 = .providerConnectionError m) ∨
          (∃ m, e2 = .timeExhausted m) ∨ (∃ m, e2 = .blockNotFound m) ∨
          (∃ m, e2 = .transactionNotFound m)) := by
  refine ⟨⟨?_, ?_⟩, ?_, ?_⟩
  · intro h2
    cases htr : e.isTransient with
    | true => rfl
    | false =>
      rw [retry_web3, retryLoop_fatal hw htr] at h2
      simp at h2
  · intro htr
    rw [retry_web3, retryLoop_retry hw htr (by omega)]
    have hpos := retryLoop_attempts_pos B work (1 + 1) (0 + 1)
    show 2 ≤ (retryLoop B work (1 + 1) (0 + 1)).attempts + 1
    omega
  · intro htr
    exact retryLoop_fatal hw htr
  · intro e2
    cases e2 <;> simp [Web3Error.isTransient]

/-- Witness for C4 at a non-transient error under a positive budget. -/
theorem retry_transient_iff_witness :
    0 < 30 ∧ fatalWork 1 = .error (.otherError "ValueError" "boom") ∧
      ((2 ≤ (retry_web3 30 fatalWork).attempts ↔
          Web3Error.isTransient (.otherError "ValueError" "boom") = true) ∧
        (Web3Error.isTransient (.otherError "ValueError" "boom") = false →
          retry_web3 30 fatalWork =
            ⟨.error (.otherError "ValueError" "boom"),
              [.fatalError (.otherError "ValueError" "boom")], 1, 0⟩) ∧
        ∀ e2 : Web3Error, e2.isTransient = true ↔
          ((∃ m, e2 = .providerConnectionError m) ∨
            (∃ m, e2 = .timeExhausted m) ∨ (∃ m, e2 = .blockNotFound m) ∨
            (∃ m, e2 = .transactionNotFound m))) :=
  ⟨by omega, rfl,
    retry_transient_iff 30 fatalWork (.otherError "ValueError" "boom")
      (by omega) rfl⟩

/-- C5 — Retry bound: with the source's fixed 1-second backoff
(`floor(B/1) + 1 = B + 1`), an always-transiently-failing unit of work is
attempted exactly `B + 1` times and the error of the final (`B + 1`-th)
attempt is raised; with budget 3 this is exactly 4 attempts. -/
theorem retry_bound {α : Type} (B : Nat) (work : Nat → Except Web3Error α)
    (hfail : ∀ k, ∃ e, work k = .error e ∧ e.isTransient = true) :
    (retry_web3 B work).attempts = B + 1 ∧
      ∃ e, work (B + 1) = .error e ∧ (retry_web3 B work).result = .error e := by
  rcases retryLoop_always_transient hfail (B - 0) B 1 0 rfl with
    ⟨hatt, e, hw, hres⟩
  constructor
  · show (retryLoop B work 1 0).attempts = B + 1
    rw [hatt]
    omega
  · refine ⟨e, ?_, hres⟩
    have harith : 1 + (B - 0) = B + 1 := by omega
    rw [harith] at hw
    exact hw

/-- Witness for C5: the spec's concrete scenario — budget 3, always
connection-refused, 4 attempts, 4th attempt's error raised. -/
theorem retry_bound_witness :
    (∀ k, ∃ e, connRefusedWork k = .error e ∧ e.isTransient = true) ∧
      (retry_web3 3 connRefusedWork).attempts = 3 + 1 ∧
      ∃ e, connRefusedWork (3 + 1) = .error e ∧
        (retry_web3 3 connRefusedWork).result = .error e :=
  ⟨fun _ => ⟨.providerConnectionError "connection refused", rfl, rfl⟩,
    retry_bound 3 connRefusedWork
      (fun _ => ⟨.providerConnectionError "connection refused", rfl, rfl⟩)⟩

/-- C6 — Eventual success: a success on any attempt returns that value
unchanged with no further attempt and no further log or sleep (first
conjunct); in particular with transient errors on attempts 1 and 2 and a
success on attempt 3 (budget at least two backoffs), the wrapper returns the
success value after exactly 3 attempts and 2 sleeps, propagating no error. -/
theorem retry_eventual_success {α : Type} (B : Nat)
    (work : Nat → Except Web3Error α) (e1 e2 : Web3Error) (v : α)
    (h1 : work 1 = .error e1) (ht1 : e1.isTransient = true)
    (h2 : work 2 = .error e2) (ht2 : e2.isTransient = true)
    (h3 : work 3 = .ok v) (hB : 2 ≤ B) :
    (∀ (w : Nat → Except Web3Error α) (a el : Nat) (v1 : α),
        w a = .ok v1 → retryLoop B w a el = ⟨.ok v1, [], 1, 0⟩) ∧
      (retry_web3 B work).result = .ok v ∧
      (retry_web3 B work).attempts = 3 ∧ (retry_web3 B work).sleeps = 2 := by
  have e3s : retryLoop B work 3 2 = ⟨.ok v, [], 1, 0⟩ := retryLoop_ok h3
  have e2s : retryLoop B work 2 1 =
      ⟨.ok v, [.retryWarning 2 ((B : Int) - ((1 : Nat) : Int))], 2, 1⟩ := by
    rw [retryLoop_retry h2 ht2 (by omega), e3s]
  have e1s : retryLoop B work 1 0 =
      ⟨.ok v,
        [.retryWarning 1 ((B : Int) - ((0 : Nat) : Int)),
          .retryWarning 2 ((B : Int) - ((1 : Nat) : Int))], 3, 2⟩ := by
    rw [retryLoop_retry h1 ht1 (by omega), e2s]
  refine ⟨fun w a el v1 h => retryLoop_ok h, ?_, ?_, ?_⟩
  · show (retryLoop B work 1 0).result = .ok v
    rw [e1s]
  · show (retryLoop B work 1 0).attempts = 3
    rw [e1s]
  · show (retryLoop B work 1 0).sleeps = 2
    rw [e1s]

/-- Witness for C6: transient errors on attempts 1 and 2, success (value 42)
on attempt 3, budget 30. -/
theorem retry_eventual_success_witness :
    eventualWork 1 = .error (.providerConnectionError "refused") ∧
      Web3Error.isTransient (.providerConnectionError "refused") = true ∧
      eventualWork 2 = .error (.blockNotFound "pending") ∧
      Web3Error.isTransient (.blockNotFound "pending") = true ∧
      eventualWork 3 = .ok 42 ∧ 2 ≤ 30 ∧
      ((∀ (w : Nat → Except Web3Error Nat) (a el : Nat) (v1 : Nat),
          w a = .ok v1 → retryLoop 30 w a el = ⟨.ok v1, [], 1, 0⟩) ∧
        (retry_web3 30 eventualWork).result = .ok 42 ∧
        (retry_web3 30 eventualWork).attempts = 3 ∧
        (retry_web3 30 eventualWork).sleeps = 2) :=
  ⟨rfl, rfl, rfl, rfl, rfl, by omega,
    retry_eventual_success 30 eventualWork
      (.providerConnectionError "refused") (.blockNotFound "pending") 42
      rfl rfl rfl rfl rfl (by omega)⟩

/-- Counterexample to C7 as stated: with budget 3 and an always-transient
failure, the budget-exhausting failure is attempt 4 (`attempts = 4`), and its
retrying-style warning line `retryWarning 4 0` IS emitted — the source logs
the warning before checking `remaining <= 0`, so the log ends
`[..., retryWarning 4 0, budgetExceeded 3]` instead of omitting the attempt-4
warning as the claim requires. -/
theorem retry_log_before_check_counterexample :
    (retry_web3 3 lastErrorWork).attempts = 4 ∧
      (retry_web3 3 lastErrorWork).logs =
        [.retryWarning 1 3, .retryWarning 2 2, .retryWarning 3 1,
          .retryWarning 4 0, .budgetExceeded 3] ∧
      LogEvent.retryWarning 4 0 ∈ (retry_web3 3 lastErrorWork).logs := by
  rw [lastErrorWork_eval]
  exact ⟨rfl, rfl, by simp⟩

/-- C7 (amended) — On a transient error the wrapper first emits the
transient-failure log line with the attempt number and remaining budget; only
then does it check whether the remaining budget is ≤ 0, propagating the
triggering error in that case (after the exhaustion log line); otherwise it
sleeps for the fixed backoff, increments the attempt counter and re-executes
the unit of work — so the retrying-style log line is emitted on the
budget-exhausting failure as well. -/
theorem retry_transient_step (B attempt elapsed : Nat) {α : Type}
    (work : Nat → Except Web3Error α) (exc : Web3Error)
    (he : work attempt = .error exc) (ht : exc.isTransient = true) :
    (B ≤ elapsed → retryLoop B work attempt elapsed =
        ⟨.error exc,
          [.retryWarning attempt ((B : Int) - (elapsed : Int)),
            .budgetExceeded B], 1, 0⟩) ∧
      (elapsed < B → retryLoop B work attempt elapsed =
        ⟨(retryLoop B work (attempt + 1) (elapsed + 1)).result,
          .retryWarning attempt ((B : Int) - (elapsed : Int)) ::
            (retryLoop B work (attempt + 1) (elapsed + 1)).logs,
          (retryLoop B work (attempt + 1) (elapsed + 1)).attempts + 1,
          (retryLoop B work (attempt + 1) (elapsed + 1)).sleeps + 1⟩) :=
  ⟨fun hb => retryLoop_exhaust he ht hb, fun hb => retryLoop_retry he ht hb⟩

/-- Witness for the amended C7 at the budget-exhausting state of the concrete
scenario (attempt 4, elapsed 3, budget 3). -/
theorem retry_transient_step_witness :
    lastErrorWork 4 = .error (.timeExhausted "E2") ∧
      Web3Error.isTransient (.timeExhausted "E2") = true ∧
      ((3 ≤ 3 → retryLoop 3 lastErrorWork 4 3 =
          ⟨.error (.timeExhausted "E2"),
            [.retryWarning 4 (((3 : Nat) : Int) - ((3 : Nat) : Int)),
              .budgetExceeded 3], 1, 0⟩) ∧
        (3 < 3 → retryLoop 3 lastErrorWork 4 3 =
          ⟨(retryLoop 3 lastErrorWork (4 + 1) (3 + 1)).result,
            .retryWarning 4 (((3 : Nat) : Int) - ((3 : Nat) : Int)) ::
              (retryLoop 3 lastErrorWork (4 + 1) (3 + 1)).logs,
            (retryLoop 3 lastErrorWork (4 + 1) (3 + 1)).attempts + 1,
            (retryLoop 3 lastErrorWork (4 + 1) (3 + 1)).sleeps + 1⟩)) :=
  ⟨rfl, rfl,
    retry_transient_step 3 4 3 lastErrorWork (.timeExhausted "E2") rfl rfl⟩

